import Mathlib

/-!
Verification development for the opsmith deployment-orchestration engine.

This file shallowly embeds the core data model and operations of the
repository (the `opsmith` Python package) in Lean 4 and proves properties
about them:

* the Dockerfile generate-validate-correct loop of
  `opsmith/service_detector.py` (`ServiceDetector.generate_dockerfile`),
* the Dockerfile validator (`ServiceDetector._validate_dockerfile`),
* the command executor shared by `opsmith/command_runner.py` and
  `opsmith/infra_provisioners/base_provisioner.py`,
* the YAML-backed configuration store of `opsmith/types.py`
  (`DeploymentConfig.save` / `DeploymentConfig.load`),
* the infrastructure-dependency confirmation validator of `opsmith/main.py`
  (`_validate_infra_deps_config`),
* the monolithic deployment strategy entry point
  (`MonolithicDeploymentStrategy.deploy` in
  `opsmith/deployment_strategies/monolithic.py`),
* the terraform invocation builder
  (`TerraformProvisioner.init_and_apply` in
  `opsmith/infra_provisioners/terraform_provisioner.py`),
* the instance-type selection policy of the cloud-provider abstraction.

External processes (docker, terraform, ansible), the LLM oracle and the
interactive prompts are modelled as explicit inputs; file-system writes are
modelled as values returned by the embedded functions.
-/

namespace Opsmith

/-! ## Dockerfile generation loop (`opsmith/service_detector.py`) -/

/-- Structured response of one oracle (LLM) call in
`ServiceDetector.generate_dockerfile`, mirroring the `DockerfileContent`
pydantic model of `service_detector.py`: the generated Dockerfile text and the
oracle's finality hint `is_final` (the `reason` field carries no control flow
and is omitted). -/
structure DockerfileContent where
  content : String
  is_final : Bool

/-- `MAX_DOCKERFILE_GENERATE_ATTEMPTS = 5` from `service_detector.py`. -/
def MAX_DOCKERFILE_GENERATE_ATTEMPTS : Nat := 5

/-- How one run of the generate-validate-correct loop ended: `success a`
(validation passed on attempt `a`, Dockerfile written), `acceptedFinal a`
(validation failed on attempt `a` but the post-feedback finality hint was
accepted, Dockerfile written), or `exhausted` (the `raise Exception` path after
all attempts failed). Attempts are numbered from 0 as in
`for attempt in range(MAX_DOCKERFILE_GENERATE_ATTEMPTS)`. -/
inductive GenOutcome where
  | success (attempt : Nat)
  | acceptedFinal (attempt : Nat)
  | exhausted
deriving DecidableEq, Repr

/-- Trace of one run of `ServiceDetector.generate_dockerfile`'s loop:
`attempts` records, in order, the `validation_feedback` string carried by the
oracle prompt of each attempt (list position `i` is attempt `i`); `written` is
the Dockerfile content written to `dockerfile_path_abs`, if any write
happened; `outcome` says how the loop ended. -/
structure GenTrace where
  attempts : List String
  written : Option String
  outcome : GenOutcome
deriving DecidableEq, Repr

/-- The body of the `for attempt in range(MAX_DOCKERFILE_GENERATE_ATTEMPTS)`
loop of `ServiceDetector.generate_dockerfile`, embedded over an abstract
oracle and validator. `oracle a fb` is the structured response of the
`agent.run_sync` call at attempt `a` whose prompt carries
`validation_feedback = fb` (the accumulated `message_history` is a function of
the attempt index once `oracle` and `validate` are fixed, so it needs no
separate parameter); `validate c` embeds
`ServiceDetector._validate_dockerfile(c)`: `none` on success, `some err` on
failure. Python's truthiness test `if is_final and validation_feedback:` on
the feedback of the current prompt becomes `is_final && fb != ""`. `a` is the
current attempt index and `fuel` the number of attempts left. -/
def genLoop (oracle : Nat → String → DockerfileContent)
    (validate : String → Option String) : Nat → Nat → String → GenTrace
  | _, 0, _ => { attempts := [], written := none, outcome := .exhausted }
  | a, fuel + 1, fb =>
    let resp := oracle a fb
    match validate resp.content with
    | none => { attempts := [fb], written := some resp.content, outcome := .success a }
    | some err =>
      if resp.is_final && fb != "" then
        { attempts := [fb], written := some resp.content, outcome := .acceptedFinal a }
      else
        let r := genLoop oracle validate (a + 1) fuel err
        { attempts := fb :: r.attempts, written := r.written, outcome := r.outcome }

/-- `ServiceDetector.generate_dockerfile` for a buildable service: the loop is
entered at attempt 0 with `validation_feedback = ""` and all
`MAX_DOCKERFILE_GENERATE_ATTEMPTS` attempts remaining. -/
def generate_dockerfile (oracle : Nat → String → DockerfileContent)
    (validate : String → Option String) : GenTrace :=
  genLoop oracle validate 0 MAX_DOCKERFILE_GENERATE_ATTEMPTS ""

/-- Concrete oracle used to witness the finality-hint gate: it claims finality
exactly on attempt 1. -/
def oracleFinalOnSecond : Nat → String → DockerfileContent :=
  fun a _ => { content := toString a, is_final := a == 1 }

/-- Concrete validator that fails every artifact with a fixed diagnostic. -/
def validateAlwaysFail : String → Option String :=
  fun _ => some "build failed"

/-- Concrete oracle for the three-attempt scenario: the artifact text is the
attempt number. -/
def oracleByAttempt : Nat → String → DockerfileContent :=
  fun a _ => { content := toString a, is_final := false }

/-- Concrete validator for the three-attempt scenario: artifacts "0" and "1"
fail with distinct diagnostics, everything else passes. -/
def validateFirstTwoFail : String → Option String :=
  fun c => if c = "0" then some "error one" else if c = "1" then some "error two" else none

/-! ## Dockerfile validator (`ServiceDetector._validate_dockerfile`) -/

/-- Result triple of `ServiceDetector._run_command_with_streaming_output`:
`returncode` is `process.returncode` (`none` models Python `None`, which the
attribute still holds right after `process.terminate()` on a timeout),
`output` is the joined streamed lines, and `timedOut` records whether
`subprocess.TimeoutExpired` was caught. -/
structure StreamedRun where
  returncode : Option Int
  output : String
  timedOut : Bool
deriving DecidableEq, Repr

/-- The failure message `_validate_dockerfile` returns when `docker build`
exits non-zero, verbatim from `service_detector.py`, with the build log
interpolated at the end. -/
def buildFailedMsg (buildOutput : String) : String :=
  "Dockerfile build failed. Please analyze the following output and revise"
    ++ " the Dockerfile:\n" ++ buildOutput

/-- The failure message `_validate_dockerfile` returns when the image builds
but `docker run` exits non-zero before the timeout, verbatim from
`service_detector.py`, with the run log and build log interpolated. -/
def runFailedMsg (runOutput buildOutput : String) : String :=
  "Dockerfile built successfully, but running the image failed. Please analyze"
    ++ " the following run output and revise the Dockerfile to fix issues like"
    ++ " missing packages or command errors. If you believe the Dockerfile is"
    ++ " correct and the failure is due to runtime issues (e.g. missing environment"
    ++ " variables), then return the Dockerfile content again but set `is_final` to"
    ++ " true in the `DockerfileValidationResponse`.\n\nRun"
    ++ " Output:\n" ++ runOutput ++ "\n\nBuild Output"
    ++ " was:\n" ++ buildOutput

/-- `ServiceDetector._validate_dockerfile`, embedded over the results of the
two streamed docker commands: `build` is the result of `docker build` (30 min
timeout), `run` of `docker run --rm` (60 s timeout, only reached when the
build succeeded). Returns `none` on success and `some msg` on failure,
mirroring the source: non-zero (or absent) build return code fails with the
build log; then a timed-out run is treated as success for long-running
services; then a non-zero run return code fails with the run log; otherwise
success. The `finally` image cleanup has no effect on the returned value. -/
def validate_dockerfile (build run : StreamedRun) : Option String :=
  if build.returncode ≠ some 0 then
    some (buildFailedMsg build.output)
  else if run.timedOut then
    none
  else if run.returncode ≠ some 0 then
    some (runFailedMsg run.output build.output)
  else
    none

/-! ## Command executor (`opsmith/command_runner.py` and
`opsmith/infra_provisioners/base_provisioner.py`, identical `_run_command`) -/

/-- Outcome of `subprocess.Popen` + streaming + `process.wait()`:
either the executable was absent (`FileNotFoundError`) or the process ran to
completion with a return code and the streamed output lines. -/
inductive SpawnOutcome where
  | fileNotFound
  | completed (returncode : Int) (outputLines : List String)
deriving DecidableEq, Repr

/-- The errors `_run_command` can raise: `FileNotFoundError` (re-raised, with
the executable named in the printed message) and
`subprocess.CalledProcessError(returncode, command)` — note the source passes
exactly the return code and the command to the exception, no output. -/
inductive CommandError where
  | executableNotFound (executable : String)
  | calledProcessError (returncode : Int) (command : List String)
deriving DecidableEq, Repr

/-- `CommandRunner._run_command` / `BaseInfrastructureProvisioner._run_command`:
streams the output lines (a console effect, dropped here), waits, and raises
`CalledProcessError(returncode, command)` on a non-zero exit; a missing
executable raises the executable-not-found error. The spawn happens exactly
once per call: no retry exists at this layer. -/
def run_command (executable : String) (command : List String) :
    SpawnOutcome → Except CommandError Unit
  | .fileNotFound => .error (.executableNotFound executable)
  | .completed rc _ => if rc ≠ 0 then .error (.calledProcessError rc command) else .ok ()

/-! ## Data model and YAML store (`opsmith/types.py`) -/

/-- `ServiceTypeEnum` from `types.py`. -/
inductive ServiceTypeEnum where
  | BACKEND_API
  | FRONTEND
  | FULL_STACK
  | BACKEND_WORKER
deriving DecidableEq, Repr

/-- The string value of a `ServiceTypeEnum` member. -/
def ServiceTypeEnum.value : ServiceTypeEnum → String
  | .BACKEND_API => "BACKEND_API"
  | .FRONTEND => "FRONTEND"
  | .FULL_STACK => "FULL_STACK"
  | .BACKEND_WORKER => "BACKEND_WORKER"

/-- Pydantic validation of a string into `ServiceTypeEnum`. -/
def parseServiceType (s : String) : Option ServiceTypeEnum :=
  if s = "BACKEND_API" then some .BACKEND_API
  else if s = "FRONTEND" then some .FRONTEND
  else if s = "FULL_STACK" then some .FULL_STACK
  else if s = "BACKEND_WORKER" then some .BACKEND_WORKER
  else none

/-- `DependencyTypeEnum` from `types.py`. -/
inductive DependencyTypeEnum where
  | DATABASE
  | CACHE
  | MESSAGE_QUEUE
  | SEARCH_ENGINE
deriving DecidableEq, Repr

/-- The string value of a `DependencyTypeEnum` member. -/
def DependencyTypeEnum.value : DependencyTypeEnum → String
  | .DATABASE => "DATABASE"
  | .CACHE => "CACHE"
  | .MESSAGE_QUEUE => "MESSAGE_QUEUE"
  | .SEARCH_ENGINE => "SEARCH_ENGINE"

/-- Pydantic validation of a string into `DependencyTypeEnum`. -/
def parseDependencyType (s : String) : Option DependencyTypeEnum :=
  if s = "DATABASE" then some .DATABASE
  else if s = "CACHE" then some .CACHE
  else if s = "MESSAGE_QUEUE" then some .MESSAGE_QUEUE
  else if s = "SEARCH_ENGINE" then some .SEARCH_ENGINE
  else none

/-- `InfrastructureProviderEnum` from `types.py`, including the
`user_choice` sentinel. -/
inductive InfrastructureProviderEnum where
  | postgresql
  | mysql
  | mongodb
  | redis
  | rabbitmq
  | kafka
  | elasticsearch
  | weaviate
  | user_choice
deriving DecidableEq, Repr

/-- The string value of an `InfrastructureProviderEnum` member. -/
def InfrastructureProviderEnum.value : InfrastructureProviderEnum → String
  | .postgresql => "postgresql"
  | .mysql => "mysql"
  | .mongodb => "mongodb"
  | .redis => "redis"
  | .rabbitmq => "rabbitmq"
  | .kafka => "kafka"
  | .elasticsearch => "elasticsearch"
  | .weaviate => "weaviate"
  | .user_choice => "user_choice"

/-- Pydantic validation of a string into `InfrastructureProviderEnum`. -/
def parseInfrastructureProvider (s : String) : Option InfrastructureProviderEnum :=
  if s = "postgresql" then some .postgresql
  else if s = "mysql" then some .mysql
  else if s = "mongodb" then some .mongodb
  else if s = "redis" then some .redis
  else if s = "rabbitmq" then some .rabbitmq
  else if s = "kafka" then some .kafka
  else if s = "elasticsearch" then some .elasticsearch
  else if s = "weaviate" then some .weaviate
  else if s = "user_choice" then some .user_choice
  else none

/-- YAML document values as produced by `yaml.safe_load` on files written with
`yaml.dump(model_dump(mode="json"))`: the JSON-able subset. The textual
YAML layer is modelled as faithful (PyYAML round-trips this subset losslessly),
so save/load are functions to and from this tree. -/
inductive Yaml where
  | str (s : String)
  | num (n : Int)
  | bool (b : Bool)
  | null
  | arr (items : List Yaml)
  | obj (fields : List (String × Yaml))

/-- Keyword lookup in a YAML mapping, as pydantic `cls(**data)` resolves a
field by name. -/
def Yaml.getField : List (String × Yaml) → String → Option Yaml
  | [], _ => none
  | (k, v) :: rest, key => if k = key then some v else Yaml.getField rest key

/-- Reads a required string field. -/
def Yaml.asStr : Option Yaml → Option String
  | some (.str s) => some s
  | _ => none

/-- Reads a required boolean field. -/
def Yaml.asBool : Option Yaml → Option Bool
  | some (.bool b) => some b
  | _ => none

/-- Reads an `Optional[str]` field: `null` is `None`. -/
def Yaml.asOptStr : Option Yaml → Option (Option String)
  | some (.str s) => some (some s)
  | some .null => some none
  | _ => none

/-- Reads an `Optional[int]` field: `null` is `None`. -/
def Yaml.asOptInt : Option Yaml → Option (Option Int)
  | some (.num n) => some (some n)
  | some .null => some none
  | _ => none

/-- Reads a required list field. -/
def Yaml.asArr : Option Yaml → Option (List Yaml)
  | some (.arr items) => some items
  | _ => none

/-- Reads a required mapping (`dict`) field. -/
def Yaml.asObj : Option Yaml → Option (List (String × Yaml))
  | some (.obj fields) => some fields
  | _ => none

/-- `EnvVarConfig` from `types.py`. -/
structure EnvVarConfig where
  key : String
  is_secret : Bool
  default_value : Option String
deriving DecidableEq, Repr

/-- `ServiceInfo` from `types.py` (fields in source order). -/
structure ServiceInfo where
  language : String
  language_version : Option String
  service_type : ServiceTypeEnum
  framework : Option String
  service_port : Option Int
  build_tool : Option String
  env_vars : List EnvVarConfig
deriving DecidableEq, Repr

/-- `InfrastructureDependency` from `types.py` (`version` defaults to
"latest" during validation). -/
structure InfrastructureDependency where
  dependency_type : DependencyTypeEnum
  provider : InfrastructureProviderEnum
  version : String
deriving DecidableEq, Repr

/-- `DomainInfo` from `types.py`. -/
structure DomainInfo where
  service_name_slug : String
  domain_name : String
deriving DecidableEq, Repr

/-- `DeploymentEnvironment` from `types.py`. -/
structure DeploymentEnvironment where
  name : String
  region : String
  strategy : String
  domain_email : Option String
  domains : List DomainInfo
deriving DecidableEq, Repr

/-- `DeploymentConfig` from `types.py`: inherits `services` and `infra_deps`
from `ServiceList` and adds the app identity, the provider-detail `dict`
(`cloud_provider`, an arbitrary mapping) and the environments. -/
structure DeploymentConfig where
  services : List ServiceInfo
  infra_deps : List InfrastructureDependency
  app_name : String
  app_name_slug : String
  cloud_provider : List (String × Yaml)
  environments : List DeploymentEnvironment

/-- `model_dump(mode="json")` of an `Optional[str]` field. -/
def dumpOptStr : Option String → Yaml
  | none => .null
  | some s => .str s

/-- `model_dump(mode="json")` of an `Optional[int]` field. -/
def dumpOptInt : Option Int → Yaml
  | none => .null
  | some n => .num n

/-- `model_dump(mode="json")` of an `EnvVarConfig`. -/
def dumpEnvVarConfig (e : EnvVarConfig) : Yaml :=
  .obj [("key", .str e.key), ("is_secret", .bool e.is_secret),
        ("default_value", dumpOptStr e.default_value)]

/-- Pydantic validation of an `EnvVarConfig` from a YAML value. -/
def parseEnvVarConfig (y : Yaml) : Option EnvVarConfig := do
  let fields ← Yaml.asObj (some y)
  let key ← Yaml.asStr (Yaml.getField fields "key")
  let is_secret ← Yaml.asBool (Yaml.getField fields "is_secret")
  let default_value ← Yaml.asOptStr (Yaml.getField fields "default_value")
  some { key, is_secret, default_value }

/-- `model_dump(mode="json")` of a `ServiceInfo`. -/
def dumpServiceInfo (s : ServiceInfo) : Yaml :=
  .obj [("language", .str s.language),
        ("language_version", dumpOptStr s.language_version),
        ("service_type", .str s.service_type.value),
        ("framework", dumpOptStr s.framework),
        ("service_port", dumpOptInt s.service_port),
        ("build_tool", dumpOptStr s.build_tool),
        ("env_vars", .arr (s.env_vars.map dumpEnvVarConfig))]

/-- Pydantic validation of a `ServiceInfo` from a YAML value. -/
def parseServiceInfo (y : Yaml) : Option ServiceInfo := do
  let fields ← Yaml.asObj (some y)
  let language ← Yaml.asStr (Yaml.getField fields "language")
  let language_version ← Yaml.asOptStr (Yaml.getField fields "language_version")
  let stv ← Yaml.asStr (Yaml.getField fields "service_type")
  let service_type ← parseServiceType stv
  let framework ← Yaml.asOptStr (Yaml.getField fields "framework")
  let service_port ← Yaml.asOptInt (Yaml.getField fields "service_port")
  let build_tool ← Yaml.asOptStr (Yaml.getField fields "build_tool")
  let evs ← Yaml.asArr (Yaml.getField fields "env_vars")
  let env_vars ← evs.mapM parseEnvVarConfig
  some { language, language_version, service_type, framework, service_port,
         build_tool, env_vars }

/-- `model_dump(mode="json")` of an `InfrastructureDependency`. -/
def dumpInfrastructureDependency (d : InfrastructureDependency) : Yaml :=
  .obj [("dependency_type", .str d.dependency_type.value),
        ("provider", .str d.provider.value),
        ("version", .str d.version)]

/-- Pydantic validation of an `InfrastructureDependency` from a YAML value:
`dependency_type` and `provider` are required enum members, `version`
defaults to "latest" when absent. Used both by `DeploymentConfig.load` and by
`_validate_infra_deps_config` in `main.py`. -/
def parseInfrastructureDependency (y : Yaml) : Option InfrastructureDependency := do
  let fields ← Yaml.asObj (some y)
  let dt ← Yaml.asStr (Yaml.getField fields "dependency_type")
  let dependency_type ← parseDependencyType dt
  let p ← Yaml.asStr (Yaml.getField fields "provider")
  let provider ← parseInfrastructureProvider p
  let version ← match Yaml.getField fields "version" with
    | none => some "latest"
    | some (.str v) => some v
    | some _ => none
  some { dependency_type, provider, version }

/-- `model_dump(mode="json")` of a `DomainInfo`. -/
def dumpDomainInfo (d : DomainInfo) : Yaml :=
  .obj [("service_name_slug", .str d.service_name_slug),
        ("domain_name", .str d.domain_name)]

/-- Pydantic validation of a `DomainInfo` from a YAML value. -/
def parseDomainInfo (y : Yaml) : Option DomainInfo := do
  let fields ← Yaml.asObj (some y)
  let service_name_slug ← Yaml.asStr (Yaml.getField fields "service_name_slug")
  let domain_name ← Yaml.asStr (Yaml.getField fields "domain_name")
  some { service_name_slug, domain_name }

/-- `model_dump(mode="json")` of a `DeploymentEnvironment`. -/
def dumpDeploymentEnvironment (e : DeploymentEnvironment) : Yaml :=
  .obj [("name", .str e.name), ("region", .str e.region),
        ("strategy", .str e.strategy),
        ("domain_email", dumpOptStr e.domain_email),
        ("domains", .arr (e.domains.map dumpDomainInfo))]

/-- Pydantic validation of a `DeploymentEnvironment` from a YAML value. -/
def parseDeploymentEnvironment (y : Yaml) : Option DeploymentEnvironment := do
  let fields ← Yaml.asObj (some y)
  let name ← Yaml.asStr (Yaml.getField fields "name")
  let region ← Yaml.asStr (Yaml.getField fields "region")
  let strategy ← Yaml.asStr (Yaml.getField fields "strategy")
  let domain_email ← Yaml.asOptStr (Yaml.getField fields "domain_email")
  let ds ← Yaml.asArr (Yaml.getField fields "domains")
  let domains ← ds.mapM parseDomainInfo
  some { name, region, strategy, domain_email, domains }

/-- `DeploymentConfig.save`: the YAML document written to the config file is
`yaml.dump(self.model_dump(mode="json"))`; this is the structured value of
that document. -/
def DeploymentConfig.save (c : DeploymentConfig) : Yaml :=
  .obj [("services", .arr (c.services.map dumpServiceInfo)),
        ("infra_deps", .arr (c.infra_deps.map dumpInfrastructureDependency)),
        ("app_name", .str c.app_name),
        ("app_name_slug", .str c.app_name_slug),
        ("cloud_provider", .obj c.cloud_provider),
        ("environments", .arr (c.environments.map dumpDeploymentEnvironment))]

/-- `DeploymentConfig.load` on an existing, non-empty config file: the file's
YAML document is `yaml.safe_load`-ed and validated through
`cls(**config_data)`; validation failure (pydantic `ValidationError`, which
the source does not catch) is `none` here. -/
def DeploymentConfig.load (y : Yaml) : Option DeploymentConfig := do
  let fields ← Yaml.asObj (some y)
  let svs ← Yaml.asArr (Yaml.getField fields "services")
  let services ← svs.mapM parseServiceInfo
  let ids ← Yaml.asArr (Yaml.getField fields "infra_deps")
  let infra_deps ← ids.mapM parseInfrastructureDependency
  let app_name ← Yaml.asStr (Yaml.getField fields "app_name")
  let app_name_slug ← Yaml.asStr (Yaml.getField fields "app_name_slug")
  let cloud_provider ← Yaml.asObj (Yaml.getField fields "cloud_provider")
  let envs ← Yaml.asArr (Yaml.getField fields "environments")
  let environments ← envs.mapM parseDeploymentEnvironment
  some { services, infra_deps, app_name, app_name_slug, cloud_provider,
         environments }

/-! ## Infrastructure-dependency confirmation (`opsmith/main.py`,
`_validate_infra_deps_config`) -/

/-- The seen-set duplicate check of `_validate_infra_deps_config`: the loop
raises on a dependency whose `provider` was already seen, so the accepted
lists are exactly those with pairwise-distinct providers. -/
def noDuplicateProviders : List InfrastructureDependency → Bool
  | [] => true
  | d :: rest => !(rest.any fun d2 => d2.provider == d.provider) && noDuplicateProviders rest

/-- `_validate_infra_deps_config` from `main.py`.
`containsUserChoiceText` models the raw-text check
`"user_choice" in config_yaml` (when some parsed dependency has the
`user_choice` provider, its YAML text contains that substring, so the flag is
true for it); `data` is `yaml.safe_load(config_yaml)`, required to be a list
whose items validate as `InfrastructureDependency`; finally the duplicate
provider check runs. Any raised error is caught and reported as `false`. -/
def validate_infra_deps_config (containsUserChoiceText : Bool) (data : Yaml) : Bool :=
  if containsUserChoiceText then false
  else
    match data with
    | .arr items =>
      match items.mapM parseInfrastructureDependency with
      | some deps => noDuplicateProviders deps
      | none => false
    | _ => false

/-! ## Monolithic deployment strategy
(`opsmith/deployment_strategies/monolithic.py`, `deploy`) -/

/-- The externally visible stages `MonolithicDeploymentStrategy.deploy` runs,
in source order. -/
inductive DeployStep where
  | setupContainerRegistry
  | buildAndPushImages
  | fetchInstanceTypes
  | selectInstanceType
  | createVirtualMachine
  | saveEnvState
  | generateDockerCompose
deriving DecidableEq, Repr

/-- A run of `deploy`: the stages executed in order, and the error it raised,
if any. -/
structure DeployRun where
  steps : List DeployStep
  error : Option String
deriving DecidableEq, Repr

/-- `MonolithicDeploymentStrategy.deploy`, embedded at the granularity of its
provisioning stages. The body runs `_setup_container_registry`,
`_build_and_push_images` and the instance-type fetch unconditionally, then
raises `MonolithicDeploymentError("No suitable instance types found.")` when
the suggested machine-type options are empty (`instanceChoicesNonempty`
false); after VM creation and state save it raises
`MonolithicDeploymentError("User did not confirm DNS configuration.")` when
`environment.domains` is non-empty and the user declines (`dnsConfirmed`
false); otherwise it generates the docker-compose stack. The `services` list
of the deployment config is consumed only inside the provisioning helpers
(image build/push, compose generation): no branch of `deploy` inspects it
before provisioning starts. -/
def monolithic_deploy (services : List ServiceInfo) (instanceChoicesNonempty : Bool)
    (domains : List DomainInfo) (dnsConfirmed : Bool) : DeployRun :=
  let _ := services
  let pre := [DeployStep.setupContainerRegistry, DeployStep.buildAndPushImages,
              DeployStep.fetchInstanceTypes]
  if !instanceChoicesNonempty then
    { steps := pre, error := some "No suitable instance types found." }
  else
    let pre2 := pre ++ [DeployStep.selectInstanceType, DeployStep.createVirtualMachine,
                        DeployStep.saveEnvState]
    if !domains.isEmpty && !dnsConfirmed then
      { steps := pre2, error := some "User did not confirm DNS configuration." }
    else
      { steps := pre2 ++ [DeployStep.generateDockerCompose], error := none }

/-- Public-facing services in the sense of the monolithic strategy's routing
assumption: `backend_api` or `full_stack`. -/
def isPublicFacing (s : ServiceInfo) : Bool :=
  s.service_type == .BACKEND_API || s.service_type == .FULL_STACK

/-- A concrete backend API service. -/
def pythonApiService : ServiceInfo :=
  { language := "python", language_version := some "3.12",
    service_type := .BACKEND_API, framework := some "fastapi",
    service_port := some 8000, build_tool := none, env_vars := [] }

/-- A second concrete backend API service. -/
def goApiService : ServiceInfo :=
  { language := "go", language_version := none,
    service_type := .BACKEND_API, framework := none,
    service_port := some 9000, build_tool := none, env_vars := [] }

/-- Concrete infra-dependency list in YAML form for the validator witness
(the second entry leaves `version` to its default). -/
def infraDepsYamlSample : List Yaml :=
  [.obj [("dependency_type", .str "DATABASE"), ("provider", .str "postgresql"),
         ("version", .str "16")],
   .obj [("dependency_type", .str "CACHE"), ("provider", .str "redis")]]

/-- The parsed form of `infraDepsYamlSample`. -/
def infraDepsSample : List InfrastructureDependency :=
  [{ dependency_type := .DATABASE, provider := .postgresql, version := "16" },
   { dependency_type := .CACHE, provider := .redis, version := "latest" }]

/-! ## Instance-type selection (cloud-provider abstraction) -/

/-- Modelled from the spec: the `MachineType` record of the cloud-provider
abstraction (name, vCPU count, RAM, deprecation flag). The concrete
`MachineType`/`MachineTypeList`/`get_instance_types` definitions are imported
by `deployment_strategies/monolithic.py` from `cloud_providers/base.py` but
are not present under src/; RAM is modelled in whole GB. -/
structure MachineType where
  name : String
  cpu : Nat
  ram_gb : Nat
  deprecated : Bool
deriving DecidableEq, Repr

/-- Modelled from the spec: a candidate fits when its vCPU count and RAM meet
the requested floor and it is not deprecated/end-of-life. -/
def fitsRequirement (reqCpu reqRam : Nat) (m : MachineType) : Bool :=
  reqCpu ≤ m.cpu && reqRam ≤ m.ram_gb && !m.deprecated

/-- Keeps the candidate that is smaller in the (vCPU, RAM) lexicographic
order (the earlier one on ties). -/
def pickSmaller (a b : MachineType) : MachineType :=
  if b.cpu < a.cpu || (b.cpu = a.cpu && b.ram_gb < a.ram_gb) then b else a

/-- Modelled from the spec: the instance-type selection policy — filter
candidates with vCPU ≥ requested and RAM ≥ requested, excluding deprecated
types, then pick the smallest by (vCPU, RAM) ascending. -/
def select_instance_type (reqCpu reqRam : Nat) (candidates : List MachineType) :
    Option MachineType :=
  match candidates.filter (fitsRequirement reqCpu reqRam) with
  | [] => none
  | c :: cs => some (cs.foldl pickSmaller c)

/-- The (vCPU, RAM) lexicographic order on machine types used to state
minimality of the selection. -/
def lexLe (a b : MachineType) : Prop :=
  a.cpu < b.cpu ∨ (a.cpu = b.cpu ∧ a.ram_gb ≤ b.ram_gb)

/-- Concrete candidate set for the selection witness. -/
def machineCandidates : List MachineType :=
  [{ name := "tiny", cpu := 1, ram_gb := 16, deprecated := false },
   { name := "old-small", cpu := 2, ram_gb := 4, deprecated := true },
   { name := "large", cpu := 4, ram_gb := 8, deprecated := false },
   { name := "small", cpu := 2, ram_gb := 8, deprecated := false }]

/-! ## Terraform invocation builder
(`opsmith/infra_provisioners/terraform_provisioner.py`, `init_and_apply`) -/

/-- One external tool invocation: the argv list and the extra environment
variables supplied for it. -/
structure ToolInvocation where
  args : List String
  env : List (String × String)
deriving DecidableEq, Repr

/-- `TerraformProvisioner.init_and_apply`: runs `terraform init -no-color`,
then `terraform apply -auto-approve -no-color` where every `(key, value)` of
`variables` is appended to the command line as `-var key=value`, and every
entry of the separate `env_vars` mapping becomes a `TF_VAR_`-prefixed
environment variable for the apply invocation. -/
def init_and_apply (vars : List (String × String))
    (env_vars : List (String × String)) : List ToolInvocation :=
  [{ args := ["terraform", "init", "-no-color"], env := [] },
   { args := ["terraform", "apply", "-auto-approve", "-no-color"] ++
       vars.flatMap (fun kv => ["-var", kv.1 ++ "=" ++ kv.2]),
     env := env_vars.map (fun kv => ("TF_VAR_" ++ kv.1, kv.2)) }]

/-! ## Lemmas about the generation loop -/

/-- The loop performs at most `fuel` oracle calls. -/
theorem genLoop_attempts_length (o : Nat → String → DockerfileContent)
    (v : String → Option String) :
    ∀ fuel a fb, (genLoop o v a fuel fb).attempts.length ≤ fuel := by
  intro fuel
  induction fuel with
  | zero => intro a fb; simp [genLoop]
  | succ n ih =>
    intro a fb
    rw [genLoop]
    cases h : v (o a fb).content with
    | none => simp
    | some err =>
      by_cases hf : (o a fb).is_final && fb != ""
      · simp [hf]
      · simp only [hf, if_false]
        simpa using Nat.succ_le_succ (ih (a + 1) err)

/-- The feedback supplied at the first recorded attempt is the feedback the
loop was entered with. -/
theorem genLoop_attempts_zero (o : Nat → String → DockerfileContent)
    (v : String → Option String) (a fuel : Nat) (fb g : String)
    (h : (genLoop o v a fuel fb).attempts[0]? = some g) : g = fb := by
  cases fuel with
  | zero => simp [genLoop] at h
  | succ n =>
    rw [genLoop] at h
    cases hv : v (o a fb).content with
    | none => rw [hv] at h; simp at h; exact h.symm
    | some err =>
      rw [hv] at h
      by_cases hf : (o a fb).is_final && fb != ""
      · simp [hf] at h; exact h.symm
      · simp [hf] at h; exact h.symm

/-- The feedback supplied at attempt `i + 1` is exactly the validation error
of the artifact generated at attempt `i`. -/
theorem genLoop_feedback_chain (o : Nat → String → DockerfileContent)
    (v : String → Option String) :
    ∀ fuel a fb i g, (genLoop o v a fuel fb).attempts[i + 1]? = some g →
      ∃ p, (genLoop o v a fuel fb).attempts[i]? = some p ∧
        v (o (a + i) p).content = some g := by
  intro fuel
  induction fuel with
  | zero => intro a fb i g h; simp [genLoop] at h
  | succ n ih =>
    intro a fb i g h
    rw [genLoop] at h ⊢
    cases hv : v (o a fb).content with
    | none => rw [hv] at h; simp at h
    | some err =>
      rw [hv] at h
      by_cases hf : (o a fb).is_final && fb != ""
      · simp [hf] at h
      · simp only [hf, Bool.false_eq_true, if_false] at h ⊢
        cases i with
        | zero =>
          simp only [List.getElem?_cons_succ, List.getElem?_cons_zero] at h ⊢
          refine ⟨fb, rfl, ?_⟩
          cases n with
          | zero => simp [genLoop] at h
          | succ m =>
            have := genLoop_attempts_zero o v (a + 1) (m + 1) err g h
            subst this
            simpa using hv
        | succ j =>
          simp only [List.getElem?_cons_succ] at h ⊢
          have := ih (a + 1) err j g h
          obtain ⟨p, hp, hv2⟩ := this
          refine ⟨p, hp, ?_⟩
          have : a + 1 + j = a + (j + 1) := by omega
          rwa [this] at hv2

/-- When the loop ends by trusting the finality hint, the accepting attempt
was entered with a non-empty feedback string. -/
theorem genLoop_acceptedFinal (o : Nat → String → DockerfileContent)
    (v : String → Option String) :
    ∀ fuel a fb k, (genLoop o v a fuel fb).outcome = .acceptedFinal k →
      ∃ j fbk, (genLoop o v a fuel fb).attempts[j]? = some fbk ∧ fbk ≠ "" ∧ k = a + j := by
  intro fuel
  induction fuel with
  | zero => intro a fb k h; simp [genLoop] at h
  | succ n ih =>
    intro a fb k h
    rw [genLoop] at h ⊢
    cases hv : v (o a fb).content with
    | none => rw [hv] at h; simp at h
    | some err =>
      rw [hv] at h
      by_cases hf : (o a fb).is_final && fb != ""
      · simp only [hf, if_true] at h ⊢
        have hfb : (fb != "") = true := (Bool.and_eq_true _ _ |>.mp hf).2
        cases h
        exact ⟨0, fb, by simp, by simpa using hfb, by omega⟩
      · simp only [hf, Bool.false_eq_true, if_false] at h ⊢
        obtain ⟨j, fbk, hj, hne, hk⟩ := ih (a + 1) err k h
        exact ⟨j + 1, fbk, by simpa using hj, hne, by omega⟩

/-- On the exhausted path nothing was written and every attempt was used. -/
theorem genLoop_exhausted (o : Nat → String → DockerfileContent)
    (v : String → Option String) :
    ∀ fuel a fb, (genLoop o v a fuel fb).outcome = .exhausted →
      (genLoop o v a fuel fb).written = none ∧
      (genLoop o v a fuel fb).attempts.length = fuel := by
  intro fuel
  induction fuel with
  | zero => intro a fb _; simp [genLoop]
  | succ n ih =>
    intro a fb h
    rw [genLoop] at h ⊢
    cases hv : v (o a fb).content with
    | none => rw [hv] at h; simp at h
    | some err =>
      rw [hv] at h
      by_cases hf : (o a fb).is_final && fb != ""
      · simp [hf] at h
      · simp only [hf, Bool.false_eq_true, if_false] at h ⊢
        obtain ⟨hw, hl⟩ := ih (a + 1) err h
        exact ⟨hw, by simp [hl]⟩

/-- Anything written to disk is the artifact of the attempt on which the loop
ended, and that attempt ended in success or in an accepted finality hint. -/
theorem genLoop_written (o : Nat → String → DockerfileContent)
    (v : String → Option String) :
    ∀ fuel a fb c, (genLoop o v a fuel fb).written = some c →
      ∃ j fbk, (genLoop o v a fuel fb).attempts[j]? = some fbk ∧
        c = (o (a + j) fbk).content ∧
        ((genLoop o v a fuel fb).outcome = .success (a + j) ∨
         (genLoop o v a fuel fb).outcome = .acceptedFinal (a + j)) := by
  intro fuel
  induction fuel with
  | zero => intro a fb c h; simp [genLoop] at h
  | succ n ih =>
    intro a fb c h
    rw [genLoop] at h ⊢
    cases hv : v (o a fb).content with
    | none =>
      rw [hv] at h
      simp only [] at h ⊢
      simp at h
      exact ⟨0, fb, by simp, by simp [h], Or.inl (by simp)⟩
    | some err =>
      rw [hv] at h
      by_cases hf : (o a fb).is_final && fb != ""
      · simp only [hf, if_true] at h ⊢
        simp at h
        exact ⟨0, fb, by simp, by simp [h], Or.inr (by simp)⟩
      · simp only [hf, Bool.false_eq_true, if_false] at h ⊢
        obtain ⟨j, fbk, hj, hc, ho⟩ := ih (a + 1) err c h
        have hadd : a + 1 + j = a + (j + 1) := by omega
        rw [hadd] at hc ho
        exact ⟨j + 1, fbk, by simpa using hj, hc, ho⟩

/-! ## Lemmas about the YAML store -/

/-- Dumping then reading an optional string field is the identity. -/
theorem asOptStr_dump (x : Option String) : Yaml.asOptStr (some (dumpOptStr x)) = some x := by
  cases x <;> rfl

/-- Dumping then reading an optional integer field is the identity. -/
theorem asOptInt_dump (x : Option Int) : Yaml.asOptInt (some (dumpOptInt x)) = some x := by
  cases x <;> rfl

/-- Enum value round-trip for `ServiceTypeEnum`. -/
theorem parseServiceType_value (t : ServiceTypeEnum) : parseServiceType t.value = some t := by
  cases t <;> rfl

/-- Enum value round-trip for `DependencyTypeEnum`. -/
theorem parseDependencyType_value (t : DependencyTypeEnum) :
    parseDependencyType t.value = some t := by
  cases t <;> rfl

/-- Enum value round-trip for `InfrastructureProviderEnum`. -/
theorem parseInfrastructureProvider_value (p : InfrastructureProviderEnum) :
    parseInfrastructureProvider p.value = some p := by
  cases p <;> rfl

/-- Round-trip for `EnvVarConfig`. -/
theorem parseEnvVarConfig_dump (e : EnvVarConfig) :
    parseEnvVarConfig (dumpEnvVarConfig e) = some e := by
  simp [parseEnvVarConfig, dumpEnvVarConfig, Yaml.getField, Yaml.asObj, Yaml.asStr,
    Yaml.asBool, asOptStr_dump]

/-- Element-wise parser round-trip lifted to `List.mapM`'s accumulator loop. -/
theorem mapM_loop_parse_dump {α : Type} (f : α → Yaml) (g : Yaml → Option α)
    (h : ∀ a, g (f a) = some a) :
    ∀ (xs : List α) (acc : List α),
      List.mapM.loop g (xs.map f) acc = some (acc.reverse ++ xs) := by
  intro xs
  induction xs with
  | nil => intro acc; simp [List.mapM.loop]
  | cons x xs ih =>
    intro acc
    simp [List.mapM.loop, h, ih]

/-- Round-trip for `DomainInfo`. -/
theorem parseDomainInfo_dump (d : DomainInfo) : parseDomainInfo (dumpDomainInfo d) = some d := by
  simp [parseDomainInfo, dumpDomainInfo, Yaml.getField, Yaml.asObj, Yaml.asStr]

/-- Round-trip for `InfrastructureDependency`. -/
theorem parseInfrastructureDependency_dump (d : InfrastructureDependency) :
    parseInfrastructureDependency (dumpInfrastructureDependency d) = some d := by
  simp [parseInfrastructureDependency, dumpInfrastructureDependency, Yaml.getField,
    Yaml.asObj, Yaml.asStr, parseDependencyType_value, parseInfrastructureProvider_value]

/-- Round-trip for `ServiceInfo`. -/
theorem parseServiceInfo_dump (s : ServiceInfo) :
    parseServiceInfo (dumpServiceInfo s) = some s := by
  simp [parseServiceInfo, dumpServiceInfo, Yaml.getField, Yaml.asObj, Yaml.asStr,
    Yaml.asArr, asOptStr_dump, asOptInt_dump, parseServiceType_value,
    mapM_loop_parse_dump dumpEnvVarConfig parseEnvVarConfig parseEnvVarConfig_dump]

/-- Round-trip for `DeploymentEnvironment`. -/
theorem parseDeploymentEnvironment_dump (e : DeploymentEnvironment) :
    parseDeploymentEnvironment (dumpDeploymentEnvironment e) = some e := by
  simp [parseDeploymentEnvironment, dumpDeploymentEnvironment, Yaml.getField, Yaml.asObj,
    Yaml.asStr, Yaml.asArr, asOptStr_dump,
    mapM_loop_parse_dump dumpDomainInfo parseDomainInfo parseDomainInfo_dump]

/-! ## Lemmas about the infra-dependency validator and instance selection -/

/-- An accepted dependency list has pairwise-distinct providers. -/
theorem noDuplicateProviders_pairwise (deps : List InfrastructureDependency)
    (h : noDuplicateProviders deps = true) :
    deps.Pairwise (fun d1 d2 => d1.provider ≠ d2.provider) := by
  induction deps with
  | nil => simp
  | cons d rest ih =>
    simp only [noDuplicateProviders, Bool.and_eq_true, Bool.not_eq_true',
      List.any_eq_false, beq_iff_eq] at h
    exact List.Pairwise.cons (fun d2 hd2 heq => h.1 d2 hd2 heq.symm) (ih h.2)

/-- The (vCPU, RAM) order is reflexive. -/
theorem lexLe_refl (a : MachineType) : lexLe a a := Or.inr ⟨rfl, le_refl _⟩

/-- The (vCPU, RAM) order is transitive. -/
theorem lexLe_trans {a b c : MachineType} (h1 : lexLe a b) (h2 : lexLe b c) : lexLe a c := by
  unfold lexLe at *
  omega

/-- `pickSmaller` returns one of its arguments. -/
theorem pickSmaller_eq_or (a b : MachineType) : pickSmaller a b = a ∨ pickSmaller a b = b := by
  unfold pickSmaller
  split
  · exact Or.inr rfl
  · exact Or.inl rfl

/-- `pickSmaller` is below its left argument. -/
theorem pickSmaller_le_left (a b : MachineType) : lexLe (pickSmaller a b) a := by
  unfold pickSmaller lexLe
  split
  · rename_i h
    simp only [Bool.or_eq_true, decide_eq_true_eq, Bool.and_eq_true] at h
    omega
  · exact Or.inr ⟨rfl, le_refl _⟩

/-- `pickSmaller` is below its right argument. -/
theorem pickSmaller_le_right (a b : MachineType) : lexLe (pickSmaller a b) b := by
  unfold pickSmaller lexLe
  split
  · exact Or.inr ⟨rfl, le_refl _⟩
  · rename_i h
    simp only [Bool.or_eq_true, decide_eq_true_eq, Bool.and_eq_true, not_or, not_and] at h
    omega

/-- The fold over `pickSmaller` stays inside the candidate pool. -/
theorem foldl_pickSmaller_mem (cs : List MachineType) :
    ∀ c, cs.foldl pickSmaller c ∈ c :: cs := by
  induction cs with
  | nil => intro c; simp
  | cons x xs ih =>
    intro c
    rw [List.foldl_cons]
    have hmem := ih (pickSmaller c x)
    rcases List.mem_cons.mp hmem with h | h
    · rw [h]
      rcases pickSmaller_eq_or c x with hp | hp <;> rw [hp] <;> simp
    · exact List.mem_cons_of_mem _ (List.mem_cons_of_mem _ h)

/-- The fold over `pickSmaller` is a lower bound of the candidate pool. -/
theorem foldl_pickSmaller_le (cs : List MachineType) :
    ∀ c, ∀ m2 ∈ c :: cs, lexLe (cs.foldl pickSmaller c) m2 := by
  induction cs with
  | nil =>
    intro c m2 hm
    simp at hm
    subst hm
    exact lexLe_refl _
  | cons x xs ih =>
    intro c m2 hm
    rw [List.foldl_cons]
    rcases List.mem_cons.mp hm with rfl | hm2
    · exact lexLe_trans (ih (pickSmaller m2 x) _ (List.mem_cons_self _ _))
        (pickSmaller_le_left _ _)
    · rcases List.mem_cons.mp hm2 with rfl | hm3
      · exact lexLe_trans (ih (pickSmaller c m2) _ (List.mem_cons_self _ _))
          (pickSmaller_le_right _ _)
      · exact ih (pickSmaller c x) m2 (List.mem_cons_of_mem _ hm3)

/-! ## Claim theorems -/

/-- Claim C1: every run of the Dockerfile generate-validate-correct loop makes
at most `MAX_DOCKERFILE_GENERATE_ATTEMPTS` (5) generation attempts, and the
oracle's finality hint is never trusted on the first attempt: whenever the
loop accepts a failing artifact via the hint at attempt `k`, then `k ≥ 1`, the
feedback carried by attempt `k`'s prompt is non-empty and is exactly the
validation diagnostic of attempt `k - 1`'s artifact — failure feedback from an
earlier attempt had already been supplied to the oracle. -/
theorem dockerfile_loop_attempt_bound_and_final_hint_gate
    (oracle : Nat → String → DockerfileContent) (validate : String → Option String) :
    (generate_dockerfile oracle validate).attempts.length ≤ MAX_DOCKERFILE_GENERATE_ATTEMPTS ∧
    ∀ k, (generate_dockerfile oracle validate).outcome = .acceptedFinal k →
      1 ≤ k ∧ ∃ fbk prev,
        (generate_dockerfile oracle validate).attempts[k]? = some fbk ∧ fbk ≠ "" ∧
        (generate_dockerfile oracle validate).attempts[k - 1]? = some prev ∧
        validate (oracle (k - 1) prev).content = some fbk := by
  constructor
  · exact genLoop_attempts_length oracle validate MAX_DOCKERFILE_GENERATE_ATTEMPTS 0 ""
  · intro k h
    obtain ⟨j, fbk, hj, hne, hk⟩ :=
      genLoop_acceptedFinal oracle validate MAX_DOCKERFILE_GENERATE_ATTEMPTS 0 "" k h
    have hkj : k = j := by omega
    cases j with
    | zero =>
      subst hkj
      exact absurd
        (genLoop_attempts_zero oracle validate 0 MAX_DOCKERFILE_GENERATE_ATTEMPTS "" fbk hj) hne
    | succ m =>
      subst hkj
      obtain ⟨p, hp, hvp⟩ :=
        genLoop_feedback_chain oracle validate MAX_DOCKERFILE_GENERATE_ATTEMPTS 0 "" m fbk hj
      refine ⟨by omega, fbk, p, hj, hne, ?_, ?_⟩
      · simpa using hp
      · simpa using hvp

/-- Witness for C1 at a concrete oracle that claims finality on attempt 1
(0-indexed) and a validator that always fails: the hint is accepted there,
after the attempt-0 diagnostic was fed back. -/
theorem dockerfile_loop_attempt_bound_and_final_hint_gate_witness :
    (generate_dockerfile oracleFinalOnSecond validateAlwaysFail).outcome = .acceptedFinal 1 ∧
    (1 ≤ 1 ∧ ∃ fbk prev,
      (generate_dockerfile oracleFinalOnSecond validateAlwaysFail).attempts[1]? = some fbk ∧
      fbk ≠ "" ∧
      (generate_dockerfile oracleFinalOnSecond validateAlwaysFail).attempts[0]? = some prev ∧
      validateAlwaysFail (oracleFinalOnSecond 0 prev).content = some fbk) := by
  refine ⟨by decide, ?_⟩
  have h := (dockerfile_loop_attempt_bound_and_final_hint_gate oracleFinalOnSecond
    validateAlwaysFail).2 1 (by decide)
  simpa using h

/-- Claim C2: when validation fails on attempts 1 and 2 (indices 0 and 1) with
distinct diagnostics and succeeds on attempt 3 (index 2), the Dockerfile
persisted to disk is exactly the artifact generated on the successful third
attempt, and the validation feedback carried by the oracle prompt of attempt 3
is attempt 2's diagnostic text. -/
theorem dockerfile_success_on_third_attempt
    (oracle : Nat → String → DockerfileContent) (validate : String → Option String)
    (d1 d2 : String)
    (h0 : validate (oracle 0 "").content = some d1)
    (h1 : validate (oracle 1 d1).content = some d2)
    (hfin : (oracle 1 d1).is_final = false)
    (h2 : validate (oracle 2 d2).content = none)
    (_hne : d1 ≠ d2) :
    (generate_dockerfile oracle validate).written = some (oracle 2 d2).content ∧
    (generate_dockerfile oracle validate).attempts[2]? = some d2 ∧
    (generate_dockerfile oracle validate).outcome = .success 2 := by
  have h5 : MAX_DOCKERFILE_GENERATE_ATTEMPTS = 2 + 1 + 1 + 1 := rfl
  unfold generate_dockerfile
  rw [h5, genLoop, h0]
  simp only [Bool.and_eq_true, bne_iff_ne, ne_eq, not_true_eq_false, and_false, if_false]
  rw [genLoop, h1, hfin]
  simp only [Bool.false_and, Bool.false_eq_true, if_false]
  rw [genLoop, h2]
  simp

/-- Witness for C2 at a concrete oracle and validator realizing the
fail-fail-succeed scenario with diagnostics "error one" and "error two". -/
theorem dockerfile_success_on_third_attempt_witness :
    (generate_dockerfile oracleByAttempt validateFirstTwoFail).written =
      some (oracleByAttempt 2 "error two").content ∧
    (generate_dockerfile oracleByAttempt validateFirstTwoFail).attempts[2]? =
      some "error two" ∧
    (generate_dockerfile oracleByAttempt validateFirstTwoFail).outcome = .success 2 := by
  exact dockerfile_success_on_third_attempt oracleByAttempt validateFirstTwoFail
    "error one" "error two" (by decide) (by decide) (by decide) (by decide) (by decide)

/-- Claim C3: the Dockerfile validator returns failure feedback containing the
full build log when the docker build fails; returns success when the run
reaches the 60-second timeout; and returns failure feedback containing the
run log when the build succeeded but the run exited non-zero before the
timeout. -/
theorem validate_dockerfile_feedback_cases (build run : StreamedRun) :
    (build.returncode ≠ some 0 →
      validate_dockerfile build run = some (buildFailedMsg build.output) ∧
      ∃ pre, buildFailedMsg build.output = pre ++ build.output) ∧
    (build.returncode = some 0 → run.timedOut = true →
      validate_dockerfile build run = none) ∧
    (build.returncode = some 0 → run.timedOut = false → run.returncode ≠ some 0 →
      validate_dockerfile build run = some (runFailedMsg run.output build.output) ∧
      ∃ pre post, runFailedMsg run.output build.output = pre ++ run.output ++ post) := by
  refine ⟨fun hb => ⟨by simp [validate_dockerfile, hb], ?_⟩,
          fun hb ht => by simp [validate_dockerfile, hb, ht],
          fun hb ht hr => ⟨by simp [validate_dockerfile, hb, ht, hr], ?_⟩⟩
  · exact ⟨"Dockerfile build failed. Please analyze the following output and revise"
      ++ " the Dockerfile:\n", rfl⟩
  · refine ⟨"Dockerfile built successfully, but running the image failed. Please analyze"
      ++ " the following run output and revise the Dockerfile to fix issues like"
      ++ " missing packages or command errors. If you believe the Dockerfile is"
      ++ " correct and the failure is due to runtime issues (e.g. missing environment"
      ++ " variables), then return the Dockerfile content again but set `is_final` to"
      ++ " true in the `DockerfileValidationResponse`.\n\nRun"
      ++ " Output:\n",
      "\n\nBuild Output" ++ " was:\n" ++ build.output, ?_⟩
    simp [runFailedMsg, String.append_assoc]

/-- Witness for C3 covering all three branches on concrete build and run
results. -/
theorem validate_dockerfile_feedback_cases_witness :
    (validate_dockerfile ⟨some 1, "boom", false⟩ ⟨some 0, "", false⟩ =
      some (buildFailedMsg "boom") ∧ ∃ pre, buildFailedMsg "boom" = pre ++ "boom") ∧
    (validate_dockerfile ⟨some 0, "ok", false⟩ ⟨none, "running", true⟩ = none) ∧
    (validate_dockerfile ⟨some 0, "ok", false⟩ ⟨some 2, "crash", false⟩ =
      some (runFailedMsg "crash" "ok") ∧
      ∃ pre post, runFailedMsg "crash" "ok" = pre ++ "crash" ++ post) := by
  refine ⟨(validate_dockerfile_feedback_cases ⟨some 1, "boom", false⟩
      ⟨some 0, "", false⟩).1 (by decide),
    (validate_dockerfile_feedback_cases ⟨some 0, "ok", false⟩
      ⟨none, "running", true⟩).2.1 rfl rfl,
    (validate_dockerfile_feedback_cases ⟨some 0, "ok", false⟩
      ⟨some 2, "crash", false⟩).2.2 rfl rfl (by decide)⟩

/-- Counterexample for C4 as stated: the error raised on a non-zero exit does
not contain the captured output — two runs with the same exit code and
command but different outputs raise the identical
`CalledProcessError(returncode, command)` value, so the output cannot be
recovered from (is not contained in) the error. -/
theorem run_command_output_not_in_error :
    run_command "terraform" ["terraform", "apply"] (.completed 1 ["Error: exit 1"]) =
      run_command "terraform" ["terraform", "apply"] (.completed 1 ["some other log"]) ∧
    run_command "terraform" ["terraform", "apply"] (.completed 1 ["Error: exit 1"]) =
      .error (.calledProcessError 1 ["terraform", "apply"]) ∧
    ["Error: exit 1"] ≠ ["some other log"] := by
  refine ⟨rfl, rfl, by decide⟩

/-- Claim C4 as amended: a non-zero exit always raises
`CalledProcessError(returncode, command)` — carrying the exit code and the
command, but not the streamed output — a missing executable always raises the
executable-not-found error, and a zero exit returns normally; the single
spawn per call means no retry happens at this layer. -/
theorem run_command_error_cases (executable : String) (command : List String)
    (rc : Int) (lines : List String) :
    (rc ≠ 0 → run_command executable command (.completed rc lines) =
      .error (.calledProcessError rc command)) ∧
    (rc = 0 → run_command executable command (.completed rc lines) = .ok ()) ∧
    run_command executable command .fileNotFound =
      .error (.executableNotFound executable) := by
  refine ⟨fun h => by simp [run_command, h], fun h => by simp [run_command, h], rfl⟩

/-- Witness for C4's amended theorem on a failing and a succeeding run. -/
theorem run_command_error_cases_witness :
    run_command "ansible-playbook" ["ansible-playbook", "main.yml"] (.completed 2 ["fatal"]) =
      .error (.calledProcessError 2 ["ansible-playbook", "main.yml"]) ∧
    run_command "ansible-playbook" ["ansible-playbook", "main.yml"] (.completed 0 ["ok"]) =
      .ok () := by
  exact ⟨(run_command_error_cases "ansible-playbook" ["ansible-playbook", "main.yml"]
      2 ["fatal"]).1 (by decide),
    (run_command_error_cases "ansible-playbook" ["ansible-playbook", "main.yml"]
      0 ["ok"]).2.1 rfl⟩

/-- Claim C5: for every `DeploymentConfig` value, saving it to the YAML store
and loading it back yields the same configuration — the round trip is
lossless. -/
theorem deployment_config_load_save_roundtrip (x : DeploymentConfig) :
    DeploymentConfig.load (DeploymentConfig.save x) = some x := by
  simp [DeploymentConfig.load, DeploymentConfig.save, Yaml.getField, Yaml.asObj,
    Yaml.asStr, Yaml.asArr,
    mapM_loop_parse_dump dumpServiceInfo parseServiceInfo parseServiceInfo_dump,
    mapM_loop_parse_dump dumpInfrastructureDependency parseInfrastructureDependency
      parseInfrastructureDependency_dump,
    mapM_loop_parse_dump dumpDeploymentEnvironment parseDeploymentEnvironment
      parseDeploymentEnvironment_dump]

/-- Counterexample for C6 as stated: a service list with two public-facing
(backend_api) services is not rejected — `deploy` raises no error and its
first executed stage is container-registry provisioning, an infrastructure
side effect. -/
theorem monolithic_deploy_no_preflight_counterexample :
    1 < ([pythonApiService, goApiService].filter isPublicFacing).length ∧
    (monolithic_deploy [pythonApiService, goApiService] true [] true).error = none ∧
    (monolithic_deploy [pythonApiService, goApiService] true [] true).steps.head? =
      some .setupContainerRegistry := by
  decide

/-- Claim C6 as amended: the monolithic strategy performs no public-facing
service pre-flight check — for every service list (including any with more
than one backend_api/full_stack service) `deploy` starts with container
registry provisioning, and the only errors it raises are the empty
machine-choice error and the declined-DNS-confirmation error, neither of
which depends on the service list. -/
theorem monolithic_deploy_provisions_first (services : List ServiceInfo)
    (instanceChoicesNonempty : Bool) (domains : List DomainInfo) (dnsConfirmed : Bool) :
    (monolithic_deploy services instanceChoicesNonempty domains dnsConfirmed).steps.head? =
      some .setupContainerRegistry ∧
    ∀ e, (monolithic_deploy services instanceChoicesNonempty domains dnsConfirmed).error =
        some e →
      e = "No suitable instance types found." ∨
      e = "User did not confirm DNS configuration." := by
  constructor
  · unfold monolithic_deploy
    split
    · rfl
    · split
      · rfl
      · rfl
  · intro e he
    unfold monolithic_deploy at he
    split at he
    · simp at he
      exact Or.inl he.symm
    · split at he
      · simp at he
        exact Or.inr he.symm
      · simp at he

/-- Witness for C6's amended theorem: two public services, empty machine
choices — registry setup still comes first and the raised error is the
machine-choice one. -/
theorem monolithic_deploy_provisions_first_witness :
    (monolithic_deploy [pythonApiService, goApiService] false [] true).steps.head? =
      some .setupContainerRegistry ∧
    ("No suitable instance types found." = "No suitable instance types found." ∨
     "No suitable instance types found." = "User did not confirm DNS configuration.") := by
  exact ⟨(monolithic_deploy_provisions_first [pythonApiService, goApiService] false [] true).1,
    (monolithic_deploy_provisions_first [pythonApiService, goApiService] false [] true).2
      "No suitable instance types found." (by decide)⟩

/-- Claim C7: whenever the instance-type selection policy returns a machine
type, it is a candidate that satisfies the vCPU and RAM floors, it is not
deprecated, and it has the minimum (vCPU, RAM) lexicographic tuple among all
candidates satisfying the floors. -/
theorem select_instance_type_min_and_not_deprecated
    (reqCpu reqRam : Nat) (candidates : List MachineType) (m : MachineType)
    (h : select_instance_type reqCpu reqRam candidates = some m) :
    m ∈ candidates ∧ fitsRequirement reqCpu reqRam m = true ∧ m.deprecated = false ∧
    ∀ m2 ∈ candidates, fitsRequirement reqCpu reqRam m2 = true →
      m.cpu < m2.cpu ∨ (m.cpu = m2.cpu ∧ m.ram_gb ≤ m2.ram_gb) := by
  unfold select_instance_type at h
  cases hf : candidates.filter (fitsRequirement reqCpu reqRam) with
  | nil => rw [hf] at h; simp at h
  | cons c cs =>
    rw [hf] at h
    simp only [Option.some.injEq] at h
    subst h
    have hmem : cs.foldl pickSmaller c ∈ c :: cs := foldl_pickSmaller_mem cs c
    have hmemf : cs.foldl pickSmaller c ∈ candidates.filter (fitsRequirement reqCpu reqRam) := by
      rw [hf]; exact hmem
    have hm := List.mem_filter.mp hmemf
    refine ⟨hm.1, hm.2, ?_, ?_⟩
    · have := hm.2
      unfold fitsRequirement at this
      simp only [Bool.and_eq_true, Bool.not_eq_true'] at this
      exact this.2
    · intro m2 hm2 hfit2
      have hm2f : m2 ∈ c :: cs := by
        rw [← hf]; exact List.mem_filter.mpr ⟨hm2, hfit2⟩
      exact foldl_pickSmaller_le cs c m2 hm2f

/-- Witness for C7: on the concrete candidate pool, the selection requirements
(2 vCPU, 4 GB) pick the non-deprecated (2, 8) machine, the lexicographic
minimum among fitting candidates (the deprecated (2, 4) machine is skipped). -/
theorem select_instance_type_min_and_not_deprecated_witness :
    { name := "small", cpu := 2, ram_gb := 8, deprecated := false } ∈ machineCandidates ∧
    fitsRequirement 2 4 { name := "small", cpu := 2, ram_gb := 8, deprecated := false } =
      true ∧
    MachineType.deprecated { name := "small", cpu := 2, ram_gb := 8, deprecated := false } =
      false ∧
    ∀ m2 ∈ machineCandidates, fitsRequirement 2 4 m2 = true →
      2 < m2.cpu ∨ (2 = m2.cpu ∧ 8 ≤ m2.ram_gb) := by
  exact select_instance_type_min_and_not_deprecated 2 4 machineCandidates
    { name := "small", cpu := 2, ram_gb := 8, deprecated := false } (by decide)

/-- Counterexample for C8 as stated: a variable passed through `variables` is
not translated into a `TF_VAR_` environment variable — its value appears
verbatim on the apply command line as a `-var` argument, and the apply
environment stays empty. -/
theorem init_and_apply_variable_on_cli_counterexample :
    (init_and_apply [("db_password", "hunter2")] []).length = 2 ∧
    ((init_and_apply [("db_password", "hunter2")] []).getD 1 ⟨[], []⟩).args =
      ["terraform", "apply", "-auto-approve", "-no-color", "-var", "db_password=hunter2"] ∧
    ((init_and_apply [("db_password", "hunter2")] []).getD 1 ⟨[], []⟩).env = [] := by
  decide

/-- Claim C8 as amended: `init_and_apply` runs `terraform init` (no variables)
and `terraform apply`; each entry of `variables` is passed on the apply
command line as a `-var key=value` argument, while each entry of the separate
`env_vars` mapping is translated into a `TF_VAR_`-prefixed environment
variable of the apply invocation rather than a command-line argument. -/
theorem init_and_apply_variable_channels (vars env_vars : List (String × String)) :
    (∀ kv ∈ vars,
      "-var" ∈ ((init_and_apply vars env_vars).getD 1 ⟨[], []⟩).args ∧
      (kv.1 ++ "=" ++ kv.2) ∈ ((init_and_apply vars env_vars).getD 1 ⟨[], []⟩).args) ∧
    (∀ kv ∈ env_vars,
      ("TF_VAR_" ++ kv.1, kv.2) ∈ ((init_and_apply vars env_vars).getD 1 ⟨[], []⟩).env) ∧
    (init_and_apply vars env_vars).getD 0 ⟨[], []⟩ =
      { args := ["terraform", "init", "-no-color"], env := [] } := by
  refine ⟨?_, ?_, rfl⟩
  · intro kv hkv
    constructor
    · simp only [init_and_apply, List.getD, List.get?, Option.getD_some, List.mem_append,
        List.mem_flatMap]
      exact Or.inr ⟨kv, hkv, by simp⟩
    · simp only [init_and_apply, List.getD, List.get?, Option.getD_some, List.mem_append,
        List.mem_flatMap]
      exact Or.inr ⟨kv, hkv, by simp⟩
  · intro kv hkv
    simp only [init_and_apply, List.getD, List.get?, Option.getD_some, List.mem_map]
    exact ⟨kv, hkv, rfl⟩

/-- Witness for C8's amended theorem on one `variables` entry and one
`env_vars` entry. -/
theorem init_and_apply_variable_channels_witness :
    ("TF_VAR_" ++ "aws_account_id", "123") ∈
      ((init_and_apply [("region", "us-east-1")] [("aws_account_id", "123")]).getD 1
        ⟨[], []⟩).env ∧
    ("region" ++ "=" ++ "us-east-1") ∈
      ((init_and_apply [("region", "us-east-1")] [("aws_account_id", "123")]).getD 1
        ⟨[], []⟩).args := by
  exact ⟨(init_and_apply_variable_channels [("region", "us-east-1")]
      [("aws_account_id", "123")]).2.1 ("aws_account_id", "123") (by decide),
    ((init_and_apply_variable_channels [("region", "us-east-1")]
      [("aws_account_id", "123")]).1 ("region", "us-east-1") (by decide)).2⟩

/-- Claim C9: every infrastructure-dependency list accepted by the setup
confirmation validator has no repeated dependency_type+provider pair (the
validator enforces the stronger property that no provider repeats at all),
and no accepted dependency carries the `user_choice` sentinel, so none can be
passed on to provisioning. The hypothesis `hflag` records that the raw YAML
text of a list containing a `user_choice` provider contains the substring the
validator scans for. -/
theorem infra_deps_validator_invariant
    (containsUserChoiceText : Bool) (items : List Yaml)
    (deps : List InfrastructureDependency)
    (hparse : items.mapM parseInfrastructureDependency = some deps)
    (hflag : (∃ d ∈ deps, d.provider = .user_choice) → containsUserChoiceText = true)
    (hacc : validate_infra_deps_config containsUserChoiceText (.arr items) = true) :
    deps.Pairwise (fun d1 d2 =>
      ¬(d1.dependency_type = d2.dependency_type ∧ d1.provider = d2.provider)) ∧
    ∀ d ∈ deps, d.provider ≠ .user_choice := by
  have hfl : containsUserChoiceText = false := by
    cases containsUserChoiceText with
    | false => rfl
    | true => simp [validate_infra_deps_config] at hacc
  subst hfl
  simp only [validate_infra_deps_config, Bool.false_eq_true, if_false, hparse] at hacc
  have hpair := noDuplicateProviders_pairwise deps hacc
  constructor
  · exact hpair.imp (fun hne hp => hne hp.2)
  · intro d hd heq
    exact absurd (hflag ⟨d, hd, heq⟩) (by simp)

/-- Witness for C9 on a concrete accepted two-entry dependency list. -/
theorem infra_deps_validator_invariant_witness :
    infraDepsSample.Pairwise (fun d1 d2 =>
      ¬(d1.dependency_type = d2.dependency_type ∧ d1.provider = d2.provider)) ∧
    ∀ d ∈ infraDepsSample, d.provider ≠ .user_choice := by
  exact infra_deps_validator_invariant false infraDepsYamlSample infraDepsSample
    (by decide) (fun h => absurd h (by decide)) (by decide)

/-- Claim C10: when the Dockerfile generation loop exhausts all five attempts it
raises and writes nothing — the Dockerfile on disk stays as it was — and
conversely any content that was written belongs to the attempt on which the
loop returned through the validation-success branch or the accepted-finality
branch. -/
theorem dockerfile_disk_unchanged_on_exhaustion
    (oracle : Nat → String → DockerfileContent) (validate : String → Option String) :
    ((generate_dockerfile oracle validate).outcome = .exhausted →
      (generate_dockerfile oracle validate).written = none ∧
      (generate_dockerfile oracle validate).attempts.length =
        MAX_DOCKERFILE_GENERATE_ATTEMPTS) ∧
    (∀ c, (generate_dockerfile oracle validate).written = some c →
      ∃ k fbk, (generate_dockerfile oracle validate).attempts[k]? = some fbk ∧
        c = (oracle k fbk).content ∧
        ((generate_dockerfile oracle validate).outcome = .success k ∨
         (generate_dockerfile oracle validate).outcome = .acceptedFinal k)) := by
  constructor
  · intro h
    exact genLoop_exhausted oracle validate MAX_DOCKERFILE_GENERATE_ATTEMPTS 0 "" h
  · intro c h
    obtain ⟨j, fbk, hj, hc, ho⟩ :=
      genLoop_written oracle validate MAX_DOCKERFILE_GENERATE_ATTEMPTS 0 "" c h
    refine ⟨j, fbk, hj, by simpa using hc, ?_⟩
    simpa using ho

/-- Witness for C10 on an oracle that never claims finality and a validator
that always fails: all five attempts run and nothing is written. -/
theorem dockerfile_disk_unchanged_on_exhaustion_witness :
    (generate_dockerfile oracleByAttempt validateAlwaysFail).outcome = .exhausted ∧
    (generate_dockerfile oracleByAttempt validateAlwaysFail).written = none ∧
    (generate_dockerfile oracleByAttempt validateAlwaysFail).attempts.length =
      MAX_DOCKERFILE_GENERATE_ATTEMPTS := by
  refine ⟨by decide, ?_⟩
  exact (dockerfile_disk_unchanged_on_exhaustion oracleByAttempt validateAlwaysFail).1
    (by decide)

end Opsmith
